import Mathlib

/-!
Verification development for the afire HTTP/1.1 server engine.

The definitions below are a shallow embedding of the repository sources:
  src/lib/internal/handle.rs   (connection loop, middleware pipeline, route dispatch, error mapping)
  src/lib/error.rs             (error taxonomy)
  src/lib/server.rs            (server construction and route registration)
  src/lib/response.rs          (response builder)
  src/lib/middleware.rs        (legacy middleware outcome types)
  src/lib/extensions/ratelimit.rs (rate limiter)
  src/lib/lib.rs               (legacy single-file version of the server)

Rust `panic!`/`catch_unwind` is modelled with `Except String`: a hook or
handler that panics is a function returning `Except.error msg` where `msg`
is the stringified panic payload; `catch_unwind` is the `match` on that
value.  An execution of `unreachable!` is modelled by returning `none`
from an `Option`-valued function (the worker thread dies).  `Vec<u8>`
response/request bodies are modelled as the corresponding UTF-8 `String`.
Interior mutability (`&mut` parameters, `RefCell`, `RwLock`) is modelled
by returning the updated value.
-/

deriving instance DecidableEq for Except

namespace Afire

/-- Splitting a character list at a separator character; auxiliary for
`splitOnChar`. -/
def splitOnCharAux (c : Char) : List Char → List Char → List String
  | [], acc => [String.mk acc.reverse]
  | ch :: rest, acc =>
    if ch = c then String.mk acc.reverse :: splitOnCharAux c rest []
    else splitOnCharAux c rest (ch :: acc)

/-- Rust `str::split(c)` collected into a vector (kernel-reducible
reimplementation of `String.splitOn` for single-character separators). -/
def splitOnChar (c : Char) (s : String) : List String :=
  splitOnCharAux c s.data []

/-- ASCII lowercasing of a string (kernel-reducible reimplementation of
Rust `str::to_lowercase` for the ASCII header names/values at issue). -/
def asciiLower (s : String) : String :=
  String.mk (s.data.map Char.toLower)

/-- Rust `str::parse::<u64>`-style digit parsing (kernel-reducible
reimplementation of `String.toNat?`). -/
def strToNat? (s : String) : Option Nat :=
  if s.data ≠ [] ∧ s.data.all Char.isDigit then
    some (s.data.foldl (fun n ch => n * 10 + (ch.toNat - 48)) 0)
  else none

/-- Modelled from the spec: the current `Method` enum is not under src/
(only the legacy copy in src/lib/lib.rs is).  Per §3, a method is an
enumerated verb or a custom string, plus `ANY` for routes that run on all
methods.  Equality is structural. -/
inductive Method where
  | GET | POST | PUT | DELETE | OPTIONS | HEAD | PATCH | TRACE
  | CUSTOM (s : String)
  | ANY
deriving DecidableEq, Repr

/-- Modelled from the spec: the `Display` impl for `Method` is not under
src/; each verb displays as its name, a custom method as its string. -/
def Method.toString : Method → String
  | .GET => "GET"
  | .POST => "POST"
  | .PUT => "PUT"
  | .DELETE => "DELETE"
  | .OPTIONS => "OPTIONS"
  | .HEAD => "HEAD"
  | .PATCH => "PATCH"
  | .TRACE => "TRACE"
  | .CUSTOM s => s
  | .ANY => "ANY"

/-- Modelled from the spec: the current `Header` struct is not under src/
(src/lib/lib.rs holds the legacy copy).  Per §3 a header is a name/value
pair. -/
structure Header where
  name : String
  value : String
deriving DecidableEq, Repr

/-- `Header::new` (name/value constructor). -/
def Header.new (name value : String) : Header := ⟨name, value⟩

/-- Modelled from the spec: the `Content` enum is not under src/; only
`Content::TXT` (content type "text/plain") is used by the embedded code
(src/lib/internal/handle.rs and the rate limiter). -/
inductive Content where
  | TXT | HTML | JSON | XML
deriving DecidableEq, Repr

/-- Modelled from the spec: `Content::as_type` returns the MIME type. -/
def Content.as_type : Content → String
  | .TXT => "text/plain"
  | .HTML => "text/html"
  | .JSON => "application/json"
  | .XML => "application/xml"

/-- Modelled from the spec: the current `Request` struct is not under
src/.  Per §3 a request has a method, path, query parameters, headers,
raw body bytes, a client address, and a path-parameter slot written by
dispatch.  The socket handle is omitted (pure embedding). -/
structure Request where
  method : Method
  path : String
  query : List (String × String)
  headers : List Header
  body : String
  address : String
  path_params : List (String × String)
deriving DecidableEq, Repr

/-- Modelled from the spec: `Request::keep_alive` is not under src/.  Per
§4.5, HTTP/1.1 keep-alive is the default unless a `Connection: close`
header is present (header names compare case-insensitively). -/
def Request.keep_alive (r : Request) : Bool :=
  !(r.headers.any fun h => asciiLower h.name == "connection" && asciiLower h.value == "close")

/-- `Response` struct from src/lib/response.rs: status code, body bytes
(as a UTF-8 string here), headers, optional reason phrase, and the close
flag forcing connection termination. -/
structure Response where
  status : Nat
  data : String
  headers : List Header
  reason : Option String
  close : Bool
deriving DecidableEq, Repr

/-- `Response::new` from src/lib/response.rs: status 200, body "OK"
(bytes 79 75), no headers, no reason, close flag unset. -/
def Response.new : Response :=
  { status := 200, data := "OK", headers := [], reason := none, close := false }

/-- `Response::status` builder from src/lib/response.rs (primed name:
`status` is the field projection). -/
def Response.status' (r : Response) (code : Nat) : Response :=
  { r with status := code }

/-- `Response::text` builder from src/lib/response.rs. -/
def Response.text (r : Response) (t : String) : Response :=
  { r with data := t }

/-- `Response::header` builder from src/lib/response.rs: pushes the new
header at the end of the list. -/
def Response.header (r : Response) (key value : String) : Response :=
  { r with headers := r.headers ++ [Header.new key value] }

/-- `Response::content` builder from src/lib/response.rs: pushes a
Content-Type header. -/
def Response.content (r : Response) (c : Content) : Response :=
  { r with headers := r.headers ++ [Header.new "Content-Type" c.as_type] }

/-- `StartupError` from src/lib/error.rs. -/
inductive StartupError where
  | InvalidIp | NoState | InvalidSocketTimeout
deriving DecidableEq, Repr

/-- `StreamError` from src/lib/error.rs. -/
inductive StreamError where
  | UnexpectedEof
deriving DecidableEq, Repr

/-- `ParseError` from src/lib/error.rs. -/
inductive ParseError where
  | NoSeparator | NoMethod | NoPath | NoVersion | NoRequestLine
  | InvalidQuery | InvalidMethod | InvalidHeader
deriving DecidableEq, Repr

mutual

/-- `Error` from src/lib/error.rs: tagged union over startup, stream,
handling, parse and IO errors plus the `None` sentinel. -/
inductive Error where
  | Startup (e : StartupError)
  | Stream (e : StreamError)
  | Handle (e : HandleError)
  | Parse (e : ParseError)
  | Io (msg : String)
  | None

/-- `HandleError` from src/lib/error.rs: not-found carries the method and
path; panic carries the (possibly failed) request and the stringified
panic payload. -/
inductive HandleError where
  | NotFound (method : Method) (path : String)
  | Panic (req : ReqResult) (msg : String)

/-- `Result<Request>` (with `Error` as the error type), as used all over
src/lib/internal/handle.rs; mutually inductive with `Error` because
`HandleError::Panic` stores one. -/
inductive ReqResult where
  | ok (r : Request)
  | err (e : Error)

end

/-- `Result::ok()` on a `Result<Request>`. -/
def ReqResult.toOption : ReqResult → Option Request
  | .ok r => some r
  | .err _ => none

/-- `Result<Response>` as used in the post phase of
src/lib/internal/handle.rs. -/
abbrev ResResult := Except Error Response

/-- `MiddleResult` as consumed by src/lib/internal/handle.rs (the
defining middleware module is not under src/): a hook either continues or
aborts with an immediate response. -/
inductive MiddleResult where
  | Continue
  | Abort (res : Response)

/-- Modelled from the spec: the middleware trait consumed by
src/lib/internal/handle.rs (`pre_raw`, `post_raw`, `end`) is not under
src/.  Per §4.4 and §6, `pre` observes and may replace the parse result
or send a response, `post` observes the (request, response-or-error) pair
and may augment or send, `end` observes the final pair for side effects.
The `&mut` parameters are modelled by returning the updated value; a
panic inside a hook is `Except.error` with the panic payload. -/
structure MW where
  pre_raw : ReqResult → Except String (ReqResult × MiddleResult)
  post_raw : ReqResult → ResResult → Except String (ResResult × MiddleResult)
  endHook : Request → Response → Except String Unit

/-- Modelled from the spec: `RouteType` as used by
src/lib/internal/handle.rs — stateless and state-carrying handlers.  A
handler that panics returns `Except.error` with the panic payload. -/
inductive RouteType (State : Type) where
  | Stateless (h : Request → Except String Response)
  | Statefull (h : State → Request → Except String Response)

/-- Modelled from the spec: the `Route` struct (method, path pattern,
handler) used by src/lib/internal/handle.rs and src/lib/server.rs. -/
structure Route (State : Type) where
  method : Method
  path : String
  handler : RouteType State

/-- Modelled from the spec (§4.2): the path matcher is not under src/.
Patterns and paths are split on "/"; a literal segment must match
exactly; a named segment `\x7bname\x7d` matches any single non-empty
segment and binds it; a trailing wildcard segment matches any remaining
suffix (including several segments); segment counts must otherwise
agree. -/
def matchSegments : List String → List String → Option (List (String × String))
  | [], [] => some []
  | ["*"], _ => some []
  | p :: ps, a :: rest =>
    if p.data.head? == some '\x7b' && p.data.getLast? == some '\x7d' then
      if a == "" then none
      else (matchSegments ps rest).map
        (fun m => (String.mk (p.data.drop 1).dropLast, a) :: m)
    else if p == a then matchSegments ps rest
    else none
  | _, _ => none

/-- Modelled from the spec (§4.2): `match(pattern, actual_path) ->
Option ParamMap`. -/
def matchPath (pattern path : String) : Option (List (String × String)) :=
  matchSegments (splitOnChar '/' pattern) (splitOnChar '/' path)

/-- `Server` struct from src/lib/server.rs (the socket handler, an FFI
record, is omitted). -/
structure Server (State : Type) where
  port : Nat
  ip : List Nat
  buff_size : Nat
  routes : List (Route State)
  middleware : List MW
  state : Option State
  error_handler : ReqResult → String → Response
  default_headers : List Header
  socket_timeout : Option Nat
  run : Bool

/-- The crate version string used in the default Server header; its exact
value is immaterial to every claim. -/
def afireVersion : String := "1.2.0"

/-- The default panic-response handler installed by `Server::new`
(src/lib/server.rs): a 500 response naming the panic message. -/
def defaultErrorHandler : ReqResult → String → Response :=
  fun _ err =>
    ((Response.new.status' 500).text
      ("Internal Server Error :/\nError: " ++ err)).header "Content-Type" "text/plain"

/-- `u8::parse` as used by `Server::new` on each IP octet: digits only,
at most 255, failure is a panic (here `none`). -/
def parseU8 (s : String) : Option Nat :=
  match strToNat? s with
  | some n => if n ≤ 255 then some n else none
  | none => none

/-- `Server::new` from src/lib/server.rs: "localhost" becomes 127.0.0.1;
the string is split on "."; a split of length other than 4 or an
unparsable octet is `panic!("Invalid Server IP")`, modelled as `none`.
No `StartupError` value is ever produced. -/
def Server.new (State : Type) (raw_ip : String) (port : Nat) : Option (Server State) :=
  let raw_ip := if raw_ip == "localhost" then "127.0.0.1" else raw_ip
  let split_ip := splitOnChar '.' raw_ip
  if split_ip.length ≠ 4 then none
  else
    match split_ip.mapM parseU8 with
    | none => none
    | some ip =>
      some { port := port, ip := ip, buff_size := 1024, routes := [], middleware := [],
             state := none, error_handler := defaultErrorHandler,
             default_headers := [Header.new "Server" ("afire/" ++ afireVersion)],
             socket_timeout := none, run := true }

/-- `Server::route` from src/lib/server.rs: pushes a stateless route at
the end of the route list. -/
def Server.route {State : Type} (srv : Server State) (method : Method) (path : String)
    (h : Request → Except String Response) : Server State :=
  { srv with routes := srv.routes ++ [⟨method, path, .Stateless h⟩] }

/-- `Server::stateful_route` from src/lib/server.rs: pushes a
state-carrying route at the end of the route list. -/
def Server.stateful_route {State : Type} (srv : Server State) (method : Method) (path : String)
    (h : State → Request → Except String Response) : Server State :=
  { srv with routes := srv.routes ++ [⟨method, path, .Statefull h⟩] }

/-- `error_response` from src/lib/internal/handle.rs.  The `Stream`,
`Startup` and `None` arms execute `unreachable!`, modelled as `none`
(worker panic).  The `panic_handler` feature is enabled, so the `Panic`
arm delegates to the server's configurable error handler. -/
def error_response {State : Type} (err : Error) (server : Server State) : Option Response :=
  match err with
  | .Startup _ => none
  | .Stream _ => none
  | .Parse e =>
    some (match e with
      | .NoSeparator => (Response.new.status' 400).text "No separator"
      | .NoMethod => (Response.new.status' 400).text "No method"
      | .NoPath => (Response.new.status' 400).text "No path"
      | .NoVersion => (Response.new.status' 400).text "No HTTP version"
      | .NoRequestLine => (Response.new.status' 400).text "No request line"
      | .InvalidQuery => (Response.new.status' 400).text "Invalid query"
      | .InvalidHeader => (Response.new.status' 400).text "Invalid header"
      | .InvalidMethod => (Response.new.status' 400).text "Invalid method")
  | .Handle e =>
    match e with
    | .NotFound method path =>
      some ((((Response.new.status' 404).text
        ("Cannot " ++ method.toString ++ " " ++ path)).content .TXT))
    | .Panic r msg => some (server.error_handler r msg)
  | .Io e => some ((Response.new.status' 500).text e)
  | .None => none

/-- The method test of `handle_route` (src/lib/internal/handle.rs line
130): the request method equals the route method or the route method is
`ANY`. -/
def methodOk (reqMethod routeMethod : Method) : Bool :=
  reqMethod == routeMethod || routeMethod == Method.ANY

/-- Handler invocation inside `handle_route`: a stateful handler first
evaluates `state.clone().expect("State not initialized")`, whose panic
(when the state is absent) is caught by the surrounding
`catch_unwind`. -/
def runHandler {State : Type} (rt : RouteType State) (st : Option State) (req : Request) :
    Except String Response :=
  match rt with
  | .Stateless h => h req
  | .Statefull h =>
    match st with
    | some s => h s req
    | none => .error "State not initialized"

/-- The loop body of `handle_route` (src/lib/internal/handle.rs lines
128-150), already walking the reversed route list: the first route whose
method matches and whose pattern matches the path wins; its parameters
are written into the request's path-parameter slot before the handler
runs; a handler panic becomes `HandleError::Panic` carrying the request.
Returns the request (whose path-parameter slot may have been written
through the shared `Rc`) together with the route result. -/
def handleRouteGo {State : Type} (st : Option State) (req : Request) :
    List (Route State) → Request × Except Error Response
  | [] => (req, .error (.Handle (.NotFound req.method req.path)))
  | route :: rest =>
    match matchPath route.path req.path with
    | some params =>
      if methodOk req.method route.method then
        let req' := { req with path_params := params }
        match runHandler route.handler st req' with
        | .ok res => (req', .ok res)
        | .error msg => (req', .error (.Handle (.Panic (.ok req') msg)))
      else handleRouteGo st req rest
    | none => handleRouteGo st req rest

/-- `handle_route` from src/lib/internal/handle.rs: scans the registered
routes most-recently-registered first. -/
def handle_route {State : Type} (req : Request) (server : Server State) :
    Request × Except Error Response :=
  handleRouteGo server.state req server.routes.reverse

/-- Outcome of the pre-middleware loop of `get_response`. -/
inductive PreOut where
  | panicked (req : ReqResult) (msg : String)
  | finished (req : ReqResult) (res : Option Response)

/-- The pre-middleware loop of `get_response` (src/lib/internal/handle.rs
lines 77-87), walking the already-reversed middleware list: an `Abort`
stores the response and breaks, a panic returns through `handle_error`, a
`Continue` proceeds with the (possibly mutated) request. -/
def preLoop : List MW → ReqResult → PreOut
  | [], req => .finished req none
  | m :: rest, req =>
    match m.pre_raw req with
    | .error msg => .panicked req msg
    | .ok (req', .Abort r) => .finished req' (some r)
    | .ok (req', .Continue) => preLoop rest req'

/-- Outcome of the post-middleware loop of `get_response`. -/
inductive PostOut where
  | panicked (msg : String)
  | aborted (res : Response)
  | finished (res : ResResult)

/-- The post-middleware loop of `get_response`
(src/lib/internal/handle.rs lines 96-105), walking the already-reversed
middleware list: an `Abort` returns its response immediately, a panic
returns through `handle_error`, a `Continue` proceeds with the (possibly
mutated) response result. -/
def postLoop : List MW → ReqResult → ResResult → PostOut
  | [], _, res => .finished res
  | m :: rest, req, res =>
    match m.post_raw req res with
    | .error msg => .panicked msg
    | .ok (_, .Abort r) => .aborted r
    | .ok (res', .Continue) => postLoop rest req res'

/-- `handle_error` from src/lib/internal/handle.rs lines 72-75: wraps the
panic payload into `HandleError::Panic` carrying the request result and
maps it through `error_response` (whose `Panic` arm is the configured
error handler). -/
def handleErrorFn {State : Type} (msg : String) (req : ReqResult) (server : Server State) :
    Option (Option Request × Response) :=
  match error_response (.Handle (.Panic req msg)) server with
  | some r => some (req.toOption, r)
  | none => none

/-- The post phase and final error resolution of `get_response`
(src/lib/internal/handle.rs lines 96-119): run the post loop, then
convert a still-unresolved error to a response — preferring the request's
own error over the response error — and drop the request.  A `none`
result models the worker panicking inside `error_response`'s
`unreachable!` arms. -/
def getResponsePost {State : Type} (server : Server State) (req : ReqResult) (res : ResResult) :
    Option (Option Request × Response) :=
  match postLoop server.middleware.reverse req res with
  | .panicked msg => handleErrorFn msg req server
  | .aborted r => some (req.toOption, r)
  | .finished (.ok r) => some (req.toOption, r)
  | .finished (.error e) =>
    let error := match req with
      | .err err => err
      | .ok _ => e
    match error_response error server with
    | some r => some (none, r)
    | none => none

/-- `get_response` from src/lib/internal/handle.rs lines 64-120: pre
middleware (most-recently-attached first), then — unless a pre middleware
aborted — route dispatch for a successfully parsed request, then post
middleware and final error resolution. -/
def get_response {State : Type} (req0 : ReqResult) (server : Server State) :
    Option (Option Request × Response) :=
  match preLoop server.middleware.reverse req0 with
  | .panicked req msg => handleErrorFn msg req server
  | .finished req res0 =>
    match res0 with
    | some r => getResponsePost server req (.ok r)
    | none =>
      match req with
      | .ok rq =>
        let (rq', res) := handle_route rq server
        getResponsePost server (.ok rq') res
      | .err _ => getResponsePost server req (.error Error.None)

/-- One iteration of the connection loop `handle`
(src/lib/internal/handle.rs lines 29-60): keep-alive is read off the
parse result, the response is produced by `get_response`, its close flag
is captured before the write, the end hooks run (most-recently-attached
first, each under `catch_unwind`) only when `get_response` returned a
request, and the connection closes when keep-alive is denied or the
close flag is set. -/
structure HandleStep where
  req_out : Option Request
  response : Response
  endResults : List (Except String Unit)
  closeConn : Bool
deriving DecidableEq

/-- The keep-alive flag computed at the top of the loop in `handle`:
false when the parse failed. -/
def parseKeepAlive : ReqResult → Bool
  | .ok r => r.keep_alive
  | .err _ => false

/-- One iteration of `handle` (src/lib/internal/handle.rs lines 29-60);
`none` models the worker thread panicking inside the iteration. -/
def handle_iteration {State : Type} (server : Server State) (parse : ReqResult) :
    Option HandleStep :=
  let keep_alive := parseKeepAlive parse
  match get_response parse server with
  | none => none
  | some (req?, res) =>
    let close := res.close
    let endResults :=
      match req? with
      | some req => server.middleware.reverse.map (fun m => m.endHook req res)
      | none => []
    some ⟨req?, res, endResults, !keep_alive || close⟩

/-- The connection loop of `handle`, consuming a stream of parse results:
each iteration serves one request; the loop breaks (socket shutdown)
exactly when the iteration's close condition holds.  `none` models a
worker panic inside an iteration. -/
def handleLoop {State : Type} (server : Server State) :
    List ReqResult → Option (List HandleStep)
  | [] => some []
  | parse :: rest =>
    match handle_iteration server parse with
    | none => none
    | some step =>
      if step.closeConn then some [step]
      else (handleLoop server rest).map (fun steps => step :: steps)

/-- Discriminant-only equality of the legacy `Method` `PartialEq` impl in
src/lib/lib.rs (lines 279-288): two `CUSTOM` methods compare equal
whatever their strings. -/
def oldMethodEq : Method → Method → Bool
  | .GET, .GET => true
  | .POST, .POST => true
  | .PUT, .PUT => true
  | .DELETE, .DELETE => true
  | .OPTIONS, .OPTIONS => true
  | .HEAD, .HEAD => true
  | .PATCH, .PATCH => true
  | .TRACE, .TRACE => true
  | .CUSTOM _, .CUSTOM _ => true
  | .ANY, .ANY => true
  | _, _ => false

/-- A route of the legacy server in src/lib/lib.rs (handler omitted:
only the selection logic is at issue). -/
structure OldRoute where
  method : Method
  path : String
deriving DecidableEq, Repr

/-- The route-selection logic of the legacy `handle_connection`
(src/lib/lib.rs lines 210-220): scans `routes.iter().rev()` and takes the
first route satisfying `req_method == route.method || route.method ==
Method::ANY && req_path == route.path` — Rust `&&` binds tighter than
`||`, so the path comparison only applies to the `ANY` arm. -/
def handle_connection_select (routes : List OldRoute) (req_method : Method)
    (req_path : String) : Option OldRoute :=
  routes.reverse.find? fun route =>
    oldMethodEq req_method route.method ||
      (oldMethodEq route.method Method.ANY && req_path == route.path)

/-- `MiddleRequest` from src/lib/middleware.rs: the pre-phase outcome of
the legacy middleware trait implemented by the rate limiter. -/
inductive MiddleRequest where
  | Continue
  | Add (req : Request)
  | Send (res : Response)
deriving DecidableEq

/-- Modelled from the spec: `remove_address_port` (src/lib/internal/
common.rs, not under src/) keeps the client address up to the first
colon, so counting is per client IP. -/
def remove_address_port (addr : String) : String :=
  String.mk (addr.data.takeWhile (fun c => c ≠ ':'))

/-- `RateLimiter` from src/lib/extensions/ratelimit.rs.  The `RwLock`
request table is a total function defaulting to 0 (`get(..).unwrap_or
(&0)`); the atomic `last_reset` is a plain number; the wall clock is an
explicit argument of the operations that read it. -/
structure RateLimiter where
  req_limit : Nat
  last_reset : Nat
  req_timeout : Nat
  requests : String → Nat
  handler : Request → Option Response

/-- `RateLimiter::new` from src/lib/extensions/ratelimit.rs: limit 10,
window 60 s, empty table, default handler sending 429 "Too Many
Requests". -/
def RateLimiter.new : RateLimiter :=
  { req_limit := 10, last_reset := 0, req_timeout := 60, requests := fun _ => 0,
    handler := fun _ =>
      some (((Response.new.status' 429).text "Too Many Requests").content .TXT) }

/-- `RateLimiter::limit` setter. -/
def RateLimiter.limit (rl : RateLimiter) (l : Nat) : RateLimiter :=
  { rl with req_limit := l }

/-- `RateLimiter::timeout` setter. -/
def RateLimiter.timeout (rl : RateLimiter) (t : Nat) : RateLimiter :=
  { rl with req_timeout := t }

/-- `RateLimiter::add_request`: bump the counter of one client. -/
def RateLimiter.add_request (rl : RateLimiter) (ip : String) : RateLimiter :=
  { rl with requests := fun k => if k == ip then rl.requests ip + 1 else rl.requests k }

/-- `RateLimiter::check_reset` at wall-clock second `time`: when a full
window has passed since `last_reset`, clear the whole table and restart
the window. -/
def RateLimiter.check_reset (rl : RateLimiter) (time : Nat) : RateLimiter :=
  if rl.last_reset + rl.req_timeout ≤ time then
    { rl with requests := fun _ => 0, last_reset := time }
  else rl

/-- `RateLimiter::is_over_limit`: the client's counter has reached the
limit. -/
def RateLimiter.is_over_limit (rl : RateLimiter) (ip : String) : Bool :=
  rl.req_limit ≤ rl.requests ip

/-- The rate limiter's `pre` hook (src/lib/extensions/ratelimit.rs lines
167-181): parse failures pass through; an over-limit client gets the
configured handler's response sent immediately (or passes through when
the handler yields none). -/
def RateLimiter.pre (rl : RateLimiter) (req : ReqResult) : MiddleRequest :=
  match req with
  | .err _ => .Continue
  | .ok r =>
    if rl.is_over_limit (remove_address_port r.address) then
      match rl.handler r with
      | some i => .Send i
      | none => .Continue
    else .Continue

/-- The rate limiter's `end` hook (src/lib/extensions/ratelimit.rs lines
183-191) at wall-clock second `time`: for a parsed request, first reset
the table if the window elapsed, then count the request. -/
def RateLimiter.endStep (rl : RateLimiter) (req : ReqResult) (time : Nat) : RateLimiter :=
  match req with
  | .err _ => rl
  | .ok r => (rl.check_reset time).add_request (remove_address_port r.address)

/-- Serving a sequence of (request, arrival-second) pairs through an
attached rate limiter: each request is judged by the `pre` hook against
the current table, and the `end` hook (which always runs after the
response is written) updates the table. -/
def rlRun (rl : RateLimiter) : List (Request × Nat) → List MiddleRequest × RateLimiter
  | [] => ([], rl)
  | (r, t) :: rest =>
    let d := rl.pre (.ok r)
    let (ds, rl') := rlRun (rl.endStep (.ok r) t) rest
    (d :: ds, rl')

/-! Concrete fixtures used to instantiate the theorems below. -/

/-- A plain GET request for path "/x" with no headers. -/
def reqGetX : Request :=
  { method := .GET, path := "/x", query := [], headers := [], body := "",
    address := "1.2.3.4:5", path_params := [] }

/-- A server with no routes and no middleware (state `()`, default error
handler), as produced by `Server::new` up to the IP fields. -/
def baseSrv : Server Unit :=
  { port := 8080, ip := [127, 0, 0, 1], buff_size := 1024, routes := [], middleware := [],
    state := some (), error_handler := defaultErrorHandler,
    default_headers := [Header.new "Server" ("afire/" ++ afireVersion)],
    socket_timeout := none, run := true }

/-- A catch-all route answering 200 "OK". -/
def routeAnyStar : Route Unit := ⟨.ANY, "*", .Stateless (fun _ => .ok Response.new)⟩

/-- A 200 "OK" response with the close flag set. -/
def closeResp : Response := { Response.new with close := true }

/-- A catch-all route answering with the close flag set. -/
def routeClose : Route Unit := ⟨.ANY, "*", .Stateless (fun _ => .ok closeResp)⟩

/-- A catch-all route whose handler panics with payload "route boom". -/
def routePanic : Route Unit := ⟨.ANY, "*", .Stateless (fun _ => .error "route boom")⟩

/-- A middleware whose three hooks all continue without touching
anything. -/
def mwId : MW :=
  { pre_raw := fun rq => .ok (rq, .Continue),
    post_raw := fun _ rs => .ok (rs, .Continue),
    endHook := fun _ _ => .ok () }

/-- A middleware whose pre hook panics with payload "pre boom". -/
def mwPanicPre : MW :=
  { pre_raw := fun _ => .error "pre boom",
    post_raw := fun _ rs => .ok (rs, .Continue),
    endHook := fun _ _ => .ok () }

/-- A middleware whose post hook panics with payload "post boom". -/
def mwPanicPost : MW :=
  { pre_raw := fun rq => .ok (rq, .Continue),
    post_raw := fun _ _ => .error "post boom",
    endHook := fun _ _ => .ok () }

/-- A middleware whose post hook appends "A" to the response body and
whose end hook reports "A". -/
def mwMarkA : MW :=
  { pre_raw := fun rq => .ok (rq, .Continue),
    post_raw := fun _ rs => .ok (rs.map (fun r => r.text (r.data ++ "A")), .Continue),
    endHook := fun _ _ => .error "A" }

/-- A middleware whose post hook appends "B" to the response body and
whose end hook reports "B". -/
def mwMarkB : MW :=
  { pre_raw := fun rq => .ok (rq, .Continue),
    post_raw := fun _ rs => .ok (rs.map (fun r => r.text (r.data ++ "B")), .Continue),
    endHook := fun _ _ => .error "B" }

/-- The response sent by the aborting pre middleware below. -/
def respPreAbort : Response := (Response.new.status' 201).text "pre"

/-- The response sent by the aborting post middleware below. -/
def respPostAbort : Response := (Response.new.status' 202).text "post"

/-- A middleware whose pre hook sends `respPreAbort` immediately. -/
def mwPreAbort : MW :=
  { pre_raw := fun rq => .ok (rq, .Abort respPreAbort),
    post_raw := fun _ rs => .ok (rs, .Continue),
    endHook := fun _ _ => .ok () }

/-- A middleware whose post hook sends `respPostAbort` immediately. -/
def mwPostAbort : MW :=
  { pre_raw := fun rq => .ok (rq, .Continue),
    post_raw := fun _ _ => .ok (.ok Response.new, .Abort respPostAbort),
    endHook := fun _ _ => .ok () }

/-- A server over state `Nat` holding one state-carrying route for
GET /s but no state (as built by `Server::new` followed by
`stateful_route` without `state`). -/
def srvNoState : Server Nat :=
  { port := 8080, ip := [127, 0, 0, 1], buff_size := 1024,
    routes := [⟨.GET, "/s", .Statefull (fun s _ => .ok (Response.new.status' s))⟩],
    middleware := [], state := none, error_handler := defaultErrorHandler,
    default_headers := [], socket_timeout := none, run := true }

/-- The GET /s request aimed at `srvNoState`. -/
def reqGetS : Request :=
  { method := .GET, path := "/s", query := [], headers := [], body := "",
    address := "1.2.3.4:5", path_params := [] }

/-- A rate limiter configured for 2 requests per 60-second window. -/
def rlTwo : RateLimiter := RateLimiter.new.limit 2

/-- The default over-limit response of the rate limiter. -/
def tooMany : Response :=
  ((Response.new.status' 429).text "Too Many Requests").content .TXT

/-- A request from client 1.2.3.4 (port 5050). -/
def reqRL : Request :=
  { method := .GET, path := "/", query := [], headers := [], body := "",
    address := "1.2.3.4:5050", path_params := [] }

/-- A legacy route registered for GET /a. -/
def oldRouteGA : OldRoute := ⟨.GET, "/a"⟩

/-- A server holding one route for GET /a. -/
def srvRouteA : Server Unit :=
  { baseSrv with routes := [⟨.GET, "/a", .Stateless (fun _ => .ok Response.new)⟩] }

/-- A plain GET request for path "/b". -/
def reqGetB : Request :=
  { method := .GET, path := "/b", query := [], headers := [], body := "",
    address := "1.2.3.4:5", path_params := [] }

/-- A server with the catch-all 200 route and no middleware. -/
def srvAny : Server Unit := { baseSrv with routes := [routeAnyStar] }

/-- A server whose only route answers with the close flag set. -/
def srvClose : Server Unit := { baseSrv with routes := [routeClose] }

/-- The connection-loop step produced by `srvAny` on `reqGetX`. -/
def stepOk : HandleStep := ⟨some reqGetX, Response.new, [], false⟩

/-- The connection-loop step produced by `srvClose` on `reqGetX`. -/
def stepClose : HandleStep := ⟨some reqGetX, closeResp, [], true⟩

/-- A server with one (trivial) middleware and no routes. -/
def srvMwNoRoutes : Server Unit := { baseSrv with middleware := [mwId] }

/-- A server with one (trivial) middleware and the catch-all route. -/
def srvMwAny : Server Unit :=
  { baseSrv with middleware := [mwId], routes := [routeAnyStar] }

/-- A server with the two marker middleware (B attached last) and the
catch-all route. -/
def srv8 : Server Unit :=
  { baseSrv with middleware := [mwMarkA, mwMarkB], routes := [routeAnyStar] }

/-- The request transformer of the marker middleware's pre hooks: they
leave the request alone. -/
def fW : MW → ReqResult → ReqResult := fun _ rr => rr

/-- The response transformer realised by a marker middleware's post hook,
recovered by probing the hook (the hooks ignore their request
argument). -/
def gW : MW → ResResult → ResResult := fun m rs =>
  match m.post_raw (.err Error.None) rs with
  | .ok (rs', _) => rs'
  | .error _ => rs

/-- The connection-loop step produced by `srv8` on `reqGetX`. -/
def step8 : HandleStep :=
  ⟨some reqGetX,
   { status := 200, data := "OKBA", headers := [], reason := none, close := false },
   [Except.error "B", Except.error "A"], false⟩

/-- A server whose only middleware panics in its pre hook. -/
def srvPanicPre : Server Unit := { baseSrv with middleware := [mwPanicPre] }

/-- A server whose only middleware panics in its post hook, with the
catch-all route. -/
def srvPanicPost : Server Unit :=
  { baseSrv with middleware := [mwPanicPost], routes := [routeAnyStar] }

/-- A server with no middleware whose only route panics. -/
def srvRoutePanic : Server Unit := { baseSrv with routes := [routePanic] }

/-- A server carrying a pre-aborting middleware (attached last, so it
runs first on pre) and a post-aborting middleware. -/
def srv10 : Server Unit := { baseSrv with middleware := [mwPostAbort, mwPreAbort] }

/-- The pre-phase decisions a rate limiter with the given limit produces
for a run of same-client requests inside one window, starting from
counter value `c`: pass while the counter is below the limit, send the
over-limit response from then on. -/
def expectedDecisions (resp : Response) (lim : Nat) : Nat → Nat → List MiddleRequest
  | _, 0 => []
  | c, Nat.succ n =>
    (if c < lim then MiddleRequest.Continue else .Send resp) ::
      expectedDecisions resp lim (c + 1) n

/-! Theorems. -/

/-- Folding with an accumulator-preserving function is the identity. -/
theorem foldl_const_acc {α β : Type} (l : List α) (x : β) :
    List.foldl (fun acc _ => acc) x l = x := by
  induction l generalizing x with
  | nil => rfl
  | cons a rest ih => simp only [List.foldl_cons]; exact ih x

/-- When every middleware's pre hook continues with the transformed
request, the pre loop folds the transformations over the list in
traversal order and reports no abort. -/
theorem preLoop_continue_fold (l : List MW) (f : MW → ReqResult → ReqResult) (req : ReqResult)
    (h : ∀ m ∈ l, ∀ rr, m.pre_raw rr = .ok (f m rr, .Continue)) :
    preLoop l req = .finished (l.foldl (fun rr m => f m rr) req) none := by
  induction l generalizing req with
  | nil => rfl
  | cons m rest ih =>
    have hm := h m (List.mem_cons_self m rest) req
    simp only [preLoop, hm, List.foldl_cons]
    exact ih (f m req) (fun m' hm' rr => h m' (List.mem_cons_of_mem _ hm') rr)

/-- When every middleware's pre hook continues without touching the
request, the pre loop finishes with the request unchanged and no
abort. -/
theorem preLoop_continue_id (l : List MW) (req : ReqResult)
    (h : ∀ m ∈ l, ∀ rr, m.pre_raw rr = .ok (rr, .Continue)) :
    preLoop l req = .finished req none := by
  have := preLoop_continue_fold l (fun _ rr => rr) req h
  simpa [foldl_const_acc] using this

/-- When every middleware's post hook continues with the transformed
response result, the post loop folds the transformations over the list
in traversal order. -/
theorem postLoop_continue_fold (l : List MW) (g : MW → ResResult → ResResult)
    (rq : ReqResult) (rs : ResResult)
    (h : ∀ m ∈ l, ∀ rr rs0, m.post_raw rr rs0 = .ok (g m rs0, .Continue)) :
    postLoop l rq rs = .finished (l.foldl (fun rs0 m => g m rs0) rs) := by
  induction l generalizing rs with
  | nil => rfl
  | cons m rest ih =>
    have hm := h m (List.mem_cons_self m rest) rq rs
    simp only [postLoop, hm, List.foldl_cons]
    exact ih (g m rs) (fun m' hm' rr rs0 => h m' (List.mem_cons_of_mem _ hm') rr rs0)

/-- When every middleware's post hook continues without touching the
response, the post loop finishes with the response unchanged. -/
theorem postLoop_continue_id (l : List MW) (rq : ReqResult) (rs : ResResult)
    (h : ∀ m ∈ l, ∀ rr rs0, m.post_raw rr rs0 = .ok (rs0, .Continue)) :
    postLoop l rq rs = .finished rs := by
  have := postLoop_continue_fold l (fun _ rs0 => rs0) rq rs h
  simpa [foldl_const_acc] using this

/-- `error_response` only reads the error handler off the server, so
changing the route table and state leaves it unchanged. -/
theorem error_response_ignores_routes {State : Type} (err : Error) (srv : Server State)
    (routes2 : List (Route State)) (st2 : Option State) :
    error_response err { srv with routes := routes2, state := st2 } = error_response err srv := by
  cases err with
  | Startup e => rfl
  | Stream e => rfl
  | Parse e => rfl
  | Handle e => cases e with
    | NotFound m p => rfl
    | Panic r msg => rfl
  | Io msg => rfl
  | None => rfl

/-- C1: counterexample evidence.  The legacy `handle_connection`
(src/lib/lib.rs lines 210-220) selects the registered GET /a route for a
GET /b request — the route's pattern does not match the path, yet the
route wins because `&&` binds tighter than `||` and the path comparison
only guards the `ANY` arm.  The current `handle_route` on the same route
set and request correctly reports 404 NotFound. -/
theorem c1_legacy_select_ignores_path :
    handle_connection_select [oldRouteGA] Method.GET "/b" = some oldRouteGA
    ∧ matchPath "/a" "/b" = none
    ∧ handle_route reqGetB srvRouteA =
        (reqGetB, .error (.Handle (.NotFound .GET "/b"))) :=
  ⟨by decide, by decide, rfl⟩

/-- C2: the error-to-response mapping `error_response` is a pure function
sending every `ParseError` variant to a 400 response with a short text
naming the violation, `NotFound(method, path)` to a 404 response with
body "Cannot method path" (text/plain), `Panic` to the server's
configurable panic-response handler applied to the original request
result and the panic message, and `Io(msg)` to a 500 response carrying
the message. -/
theorem c2_error_response_mapping :
    ∀ (State : Type) (srv : Server State) (m : Method) (p : String) (r : ReqResult)
      (panicMsg ioMsg : String),
      error_response (.Parse .NoSeparator) srv =
        some { status := 400, data := "No separator", headers := [], reason := none, close := false }
      ∧ error_response (.Parse .NoMethod) srv =
        some { status := 400, data := "No method", headers := [], reason := none, close := false }
      ∧ error_response (.Parse .NoPath) srv =
        some { status := 400, data := "No path", headers := [], reason := none, close := false }
      ∧ error_response (.Parse .NoVersion) srv =
        some { status := 400, data := "No HTTP version", headers := [], reason := none, close := false }
      ∧ error_response (.Parse .NoRequestLine) srv =
        some { status := 400, data := "No request line", headers := [], reason := none, close := false }
      ∧ error_response (.Parse .InvalidQuery) srv =
        some { status := 400, data := "Invalid query", headers := [], reason := none, close := false }
      ∧ error_response (.Parse .InvalidHeader) srv =
        some { status := 400, data := "Invalid header", headers := [], reason := none, close := false }
      ∧ error_response (.Parse .InvalidMethod) srv =
        some { status := 400, data := "Invalid method", headers := [], reason := none, close := false }
      ∧ error_response (.Handle (.NotFound m p)) srv =
        some { status := 404, data := "Cannot " ++ m.toString ++ " " ++ p,
               headers := [Header.new "Content-Type" "text/plain"], reason := none, close := false }
      ∧ error_response (.Handle (.Panic r panicMsg)) srv = some (srv.error_handler r panicMsg)
      ∧ error_response (.Io ioMsg) srv =
        some { status := 500, data := ioMsg, headers := [], reason := none, close := false } :=
  fun _ _ _ _ _ _ _ =>
    ⟨rfl, rfl, rfl, rfl, rfl, rfl, rfl, rfl, rfl, rfl, rfl⟩

/-- C5: counterexample evidence.  A connection whose parse result is the
stream error `UnexpectedEof` is NOT treated as a silent disconnect: the
pipeline forwards the stream error into `error_response`, whose
`Stream` arm executes `unreachable!` (modelled by `none`), so the
declared-unreachable branch is reached and the worker panics instead of
attempting no response. -/
theorem c5_stream_error_reaches_unreachable :
    error_response (.Stream .UnexpectedEof) baseSrv = none
    ∧ get_response (.err (.Stream .UnexpectedEof)) baseSrv = none
    ∧ handle_iteration baseSrv (.err (.Stream .UnexpectedEof)) = none :=
  ⟨rfl, rfl, rfl⟩

/-- C6: counterexample.  A server holding a state-carrying route while
its shared state is absent starts and serves: the GET /s request is not
rejected at startup but dispatched, the `expect("State not initialized")`
panic is caught, and the client receives the default panic handler's 500
response naming the panic — contradicting the claim that this situation
is a startup error that prevents the server from starting and is never
surfaced to a client. -/
theorem c6_counterexample_no_state_is_served :
    get_response (.ok reqGetS) srvNoState =
      some (none,
        { status := 500, data := "Internal Server Error :/\nError: State not initialized",
          headers := [Header.new "Content-Type" "text/plain"], reason := none,
          close := false }) := by
  decide

/-- C6 (amended): `Server::new` rejects an invalid listen IP by panicking
before any listener exists; a state-carrying route dispatched while the
server state is absent panics at request time with "State not
initialized", which is caught and converted into a `Panic` handling
error carrying the request; and no `StartupError` is ever rendered as a
wire response (the `Startup` arm of `error_response` is unreachable
dead code). -/
theorem c6_amended_startup_behavior :
    (∀ (State : Type) (ip : String) (port : Nat),
      ip ≠ "localhost" → (splitOnChar '.' ip).length ≠ 4 →
      Server.new State ip port = none)
    ∧ (∀ (State : Type) (srv : Server State) (h : State → Request → Except String Response)
        (m : Method) (p : String) (rq : Request) (params : List (String × String)),
        srv.state = none →
        srv.routes = [⟨m, p, .Statefull h⟩] →
        matchPath p rq.path = some params →
        methodOk rq.method m = true →
        handle_route rq srv =
          ({ rq with path_params := params },
           .error (.Handle (.Panic (.ok { rq with path_params := params })
             "State not initialized"))))
    ∧ (∀ (State : Type) (srv : Server State) (se : StartupError),
        error_response (.Startup se) srv = none) := by
  refine ⟨?_, ?_, ?_⟩
  · intro State ip port hne hlen
    have h1 : (ip == "localhost") = false := beq_eq_false_iff_ne.mpr hne
    simp [Server.new, h1, hlen]
  · intro State srv h m p rq params hstate hroutes hmatch hmethod
    simp [handle_route, hroutes, handleRouteGo, hmatch, hmethod, runHandler, hstate]
  · intro State srv se
    rfl

/-- C6 (witness): the amended statement instantiated — the literal
"1.2.3" IP makes `Server::new` panic, the GET /s request against the
stateful-route-without-state server yields the caught panic error, and
`StartupError::NoState` has no wire rendering. -/
theorem c6_amended_startup_behavior_witness :
    Server.new Unit "1.2.3" 80 = none
    ∧ handle_route reqGetS srvNoState =
        (reqGetS, .error (.Handle (.Panic (.ok reqGetS) "State not initialized")))
    ∧ error_response (.Startup .NoState) srvNoState = none := by
  refine ⟨c6_amended_startup_behavior.1 Unit "1.2.3" 80 (by decide) (by decide), ?_,
    c6_amended_startup_behavior.2.2 Nat srvNoState .NoState⟩
  have h := c6_amended_startup_behavior.2.1 Nat srvNoState
    (fun s _ => .ok (Response.new.status' s)) .GET "/s" reqGetS [] rfl rfl (by decide) rfl
  exact h

/-- C4: in the per-connection loop, the iteration's close condition is
exactly "the parse result does not permit keep-alive, or the written
response's close flag is set"; when it is false the loop serves the next
request on the same connection, and when it is true the socket is shut
down and the loop exits after this response (so a set close flag always
terminates the connection whatever the keep-alive negotiation said). -/
theorem c4_close_loop :
    ∀ (State : Type) (srv : Server State) (parse : ReqResult) (rest : List ReqResult)
      (step : HandleStep),
      handle_iteration srv parse = some step →
      step.closeConn = (!(parseKeepAlive parse) || step.response.close)
      ∧ (step.closeConn = false →
          handleLoop srv (parse :: rest) = (handleLoop srv rest).map (fun steps => step :: steps))
      ∧ (step.closeConn = true → handleLoop srv (parse :: rest) = some [step]) := by
  intro State srv parse rest step h0
  refine ⟨?_, ?_, ?_⟩
  · unfold handle_iteration at h0
    cases hg : get_response parse srv with
    | none => rw [hg] at h0; exact absurd h0 (by simp)
    | some pr =>
      obtain ⟨reqq, res⟩ := pr
      rw [hg] at h0
      simp only [Option.some.injEq] at h0
      subst h0
      rfl
  · intro hfalse
    simp only [handleLoop]
    rw [h0]
    simp [hfalse]
  · intro htrue
    simp only [handleLoop]
    rw [h0]
    simp [htrue]

/-- C4 (witness): on a server whose route answers plainly, two requests
without Connection headers are served on one connection; on a server
whose route sets the close flag, the loop terminates after the first
response. -/
theorem c4_close_loop_witness :
    handleLoop srvAny [.ok reqGetX, .ok reqGetX] =
      (handleLoop srvAny [.ok reqGetX]).map (fun steps => stepOk :: steps)
    ∧ handleLoop srvClose [.ok reqGetX, .ok reqGetX] = some [stepClose] :=
  ⟨(c4_close_loop Unit srvAny (.ok reqGetX) [.ok reqGetX] stepOk (by decide)).2.1 (by decide),
   (c4_close_loop Unit srvClose (.ok reqGetX) [.ok reqGetX] stepClose (by decide)).2.2 (by decide)⟩

/-- C7: counterexample.  On a server with one registered middleware and
no routes, the GET /x request is answered with the 404 response produced
by final error resolution, `get_response` returns no request value, and
the end phase therefore invokes ZERO end hooks although a middleware is
registered and a response was written — contradicting "for every request
... every registered middleware's end hook is invoked". -/
theorem c7_counterexample_end_hooks_skipped :
    handle_iteration srvMwNoRoutes (.ok reqGetX) =
      some ⟨none,
        { status := 404, data := "Cannot GET /x",
          headers := [Header.new "Content-Type" "text/plain"], reason := none, close := false },
        [], false⟩
    ∧ srvMwNoRoutes.middleware.length = 1 :=
  ⟨by decide, rfl⟩

/-- C7 (amended): after the response is written, the end hooks run —
most-recently-attached first, with the final (request, response) pair,
each under `catch_unwind` — exactly when `get_response` returned the
request alongside the response; when the response was produced by final
error resolution (a parse error, or e.g. a 404), no end hook runs.
Stated for servers whose middleware pre/post hooks continue untouched:
a parse-failed request yields the mapped error response with an empty
end phase, and a successfully routed request yields the route's response
with one end-hook invocation per middleware, in reverse attachment
order. -/
theorem c7_amended_end_hooks :
    ∀ (State : Type) (srv : Server State),
      (∀ m ∈ srv.middleware, ∀ rr, m.pre_raw rr = .ok (rr, .Continue)) →
      (∀ m ∈ srv.middleware, ∀ rr rs, m.post_raw rr rs = .ok (rs, .Continue)) →
      (∀ (e : Error) (resp : Response),
        error_response e srv = some resp →
        handle_iteration srv (.err e) = some ⟨none, resp, [], true⟩)
      ∧ (∀ (rq rq' : Request) (res : Response),
        handle_route rq srv = (rq', .ok res) →
        handle_iteration srv (.ok rq) =
          some ⟨some rq', res, srv.middleware.reverse.map (fun m => m.endHook rq' res),
                !rq.keep_alive || res.close⟩) := by
  intro State srv hpre hpost
  have hpre' : ∀ m ∈ srv.middleware.reverse, ∀ rr, m.pre_raw rr = .ok (rr, .Continue) :=
    fun m hm => hpre m (List.mem_reverse.mp hm)
  have hpost' : ∀ m ∈ srv.middleware.reverse, ∀ rr rs, m.post_raw rr rs = .ok (rs, .Continue) :=
    fun m hm => hpost m (List.mem_reverse.mp hm)
  constructor
  · intro e resp herr
    have h1 := preLoop_continue_id srv.middleware.reverse (.err e) hpre'
    have h2 := postLoop_continue_id srv.middleware.reverse (.err e) (.error Error.None) hpost'
    simp [handle_iteration, get_response, h1, getResponsePost, h2, herr, parseKeepAlive]
  · intro rq rq' res hroute
    have h1 := preLoop_continue_id srv.middleware.reverse (.ok rq) hpre'
    have h2 := postLoop_continue_id srv.middleware.reverse (.ok rq') (.ok res) hpost'
    simp [handle_iteration, get_response, h1, hroute, getResponsePost, h2, parseKeepAlive,
      ReqResult.toOption]

/-- C7 (amended, witness): on the one-middleware server with the
catch-all route, a request with a missing separator is answered 400 with
no end hook run, while the plain GET /x request is answered 200 with the
single middleware's end hook invoked on the final pair. -/
theorem c7_amended_end_hooks_witness :
    handle_iteration srvMwAny (.err (.Parse .NoSeparator)) =
      some ⟨none,
        { status := 400, data := "No separator", headers := [], reason := none, close := false },
        [], true⟩
    ∧ handle_iteration srvMwAny (.ok reqGetX) =
      some ⟨some reqGetX, Response.new,
            srvMwAny.middleware.reverse.map (fun m => m.endHook reqGetX Response.new),
            !reqGetX.keep_alive || Response.new.close⟩ := by
  have H := c7_amended_end_hooks Unit srvMwAny
    (by intro m hm rr; cases hm with | head => rfl | tail _ h2 => cases h2)
    (by intro m hm rr rs; cases hm with | head => rfl | tail _ h2 => cases h2)
  exact ⟨H.1 (.Parse .NoSeparator) _ rfl, H.2 reqGetX reqGetX Response.new rfl⟩

/-- C8: counterexample.  With middleware A attached before middleware B
(so B is most recently attached), the post phase runs B before A — the
route's "OK" body becomes "OKBA", not "OKAB" — and the end phase also
runs B before A, contradicting "the last-attached middleware runs ...
last on the post and end phases". -/
theorem c8_counterexample_post_end_order :
    handle_iteration srv8 (.ok reqGetX) = some step8 := by
  decide

/-- C8 (amended): middleware are invoked in reverse registration order on
ALL phases: the pre loop, the post loop and the end phase each traverse
`middleware.reverse`, so the last-attached middleware runs first on pre,
first on post, and first on end.  Stated via the fold/map over
`middleware.reverse` that each phase realises when hooks continue with a
per-middleware transformation. -/
theorem c8_amended_reverse_order_all_phases :
    ∀ (State : Type) (srv : Server State) (f : MW → ReqResult → ReqResult)
      (g : MW → ResResult → ResResult),
      (∀ m ∈ srv.middleware, ∀ rr, m.pre_raw rr = .ok (f m rr, .Continue)) →
      (∀ m ∈ srv.middleware, ∀ rr rs, m.post_raw rr rs = .ok (g m rs, .Continue)) →
      (∀ req0, preLoop srv.middleware.reverse req0 =
        .finished (srv.middleware.reverse.foldl (fun rr m => f m rr) req0) none)
      ∧ (∀ rq rs, postLoop srv.middleware.reverse rq rs =
        .finished (srv.middleware.reverse.foldl (fun rs0 m => g m rs0) rs))
      ∧ (∀ (parse : ReqResult) (step : HandleStep) (rq : Request),
        handle_iteration srv parse = some step → step.req_out = some rq →
        step.endResults = srv.middleware.reverse.map (fun m => m.endHook rq step.response)) := by
  intro State srv f g hpre hpost
  refine ⟨?_, ?_, ?_⟩
  · intro req0
    exact preLoop_continue_fold _ f req0 (fun m hm => hpre m (List.mem_reverse.mp hm))
  · intro rq rs
    exact postLoop_continue_fold _ g rq rs (fun m hm => hpost m (List.mem_reverse.mp hm))
  · intro parse step rq h0 hreq
    unfold handle_iteration at h0
    cases hg : get_response parse srv with
    | none => rw [hg] at h0; exact absurd h0 (by simp)
    | some pr =>
      obtain ⟨reqq, res⟩ := pr
      rw [hg] at h0
      simp only [Option.some.injEq] at h0
      subst h0
      cases reqq with
      | none => exact absurd hreq (by simp [HandleStep.req_out])
      | some rq2 =>
        have hrq : rq2 = rq := by simpa [HandleStep.req_out] using hreq
        subst hrq
        rfl

/-- C8 (amended, witness): on the marker server the pre loop leaves the
request untouched, the post loop folds the marker transformations over
the reversed middleware list (B first), and the end results of the
served step are the end hooks mapped over the reversed list. -/
theorem c8_amended_reverse_order_witness :
    preLoop srv8.middleware.reverse (.ok reqGetX) =
      .finished (srv8.middleware.reverse.foldl (fun rr m => fW m rr) (.ok reqGetX)) none
    ∧ postLoop srv8.middleware.reverse (.ok reqGetX) (.ok Response.new) =
      .finished (srv8.middleware.reverse.foldl (fun rs0 m => gW m rs0) (.ok Response.new))
    ∧ step8.endResults = srv8.middleware.reverse.map (fun m => m.endHook reqGetX step8.response) := by
  have H := c8_amended_reverse_order_all_phases Unit srv8 fW gW
    (by intro m hm rr; cases hm with | head => rfl | tail _ h2 => cases h2 with
        | head => rfl | tail _ h3 => cases h3)
    (by intro m hm rr rs; cases hm with | head => rfl | tail _ h2 => cases h2 with
        | head => rfl | tail _ h3 => cases h3)
  exact ⟨H.1 (.ok reqGetX), H.2.1 (.ok reqGetX) (.ok Response.new),
    H.2.2 (.ok reqGetX) step8 reqGetX (by decide) rfl⟩

/-- C3: panic isolation.  A panic in a reached pre middleware makes
`get_response` return the configured error handler's response for a
`Panic` error carrying the (possibly absent) request; a panicking route
handler is caught at the dispatch boundary and converted into
`HandleError::Panic` carrying the request; a panic in a reached post
middleware again yields the error handler's response; and a `Panic`
error that survives the post phase is resolved through the configured
error handler.  In every case the pipeline returns a well-formed
response: the panic never unwinds past the connection handler. -/
theorem c3_panic_isolation :
    ∀ (State : Type) (srv : Server State),
      (∀ (req0 rq : ReqResult) (msg : String),
        preLoop srv.middleware.reverse req0 = .panicked rq msg →
        get_response req0 srv = some (rq.toOption, srv.error_handler rq msg))
      ∧ (∀ (st : Option State) (rq : Request) (route : Route State)
          (rest : List (Route State)) (params : List (String × String)) (msg : String),
        matchPath route.path rq.path = some params →
        methodOk rq.method route.method = true →
        runHandler route.handler st { rq with path_params := params } = .error msg →
        handleRouteGo st rq (route :: rest) =
          ({ rq with path_params := params },
           .error (.Handle (.Panic (.ok { rq with path_params := params }) msg))))
      ∧ (∀ (rq : ReqResult) (res : ResResult) (msg : String),
        postLoop srv.middleware.reverse rq res = .panicked msg →
        getResponsePost srv rq res = some (rq.toOption, srv.error_handler rq msg))
      ∧ (∀ (rq' : Request) (msg : String),
        postLoop srv.middleware.reverse (.ok rq')
            (.error (.Handle (.Panic (.ok rq') msg))) =
          .finished (.error (.Handle (.Panic (.ok rq') msg))) →
        getResponsePost srv (.ok rq') (.error (.Handle (.Panic (.ok rq') msg))) =
          some (none, srv.error_handler (.ok rq') msg)) := by
  intro State srv
  refine ⟨?_, ?_, ?_, ?_⟩
  · intro req0 rq msg h
    simp [get_response, h, handleErrorFn, error_response]
  · intro st rq route rest params msg hmatch hmethod hrun
    simp [handleRouteGo, hmatch, hmethod, hrun]
  · intro rq res msg h
    simp [getResponsePost, h, handleErrorFn, error_response]
  · intro rq' msg h
    simp [getResponsePost, h, error_response]

/-- C3 (witness): the isolation statement exercised on concrete servers —
a pre middleware panicking "pre boom", the catch-all route panicking
"route boom", a post middleware panicking "post boom", and the final
resolution of a surviving route-panic error; each produces the
configured handler's response. -/
theorem c3_panic_isolation_witness :
    get_response (.ok reqGetX) srvPanicPre =
      some (some reqGetX, srvPanicPre.error_handler (.ok reqGetX) "pre boom")
    ∧ handleRouteGo (some ()) reqGetX [routePanic] =
      (reqGetX, .error (.Handle (.Panic (.ok reqGetX) "route boom")))
    ∧ getResponsePost srvPanicPost (.ok reqGetX) (.ok Response.new) =
      some (some reqGetX, srvPanicPost.error_handler (.ok reqGetX) "post boom")
    ∧ getResponsePost srvRoutePanic (.ok reqGetX)
        (.error (.Handle (.Panic (.ok reqGetX) "route boom"))) =
      some (none, srvRoutePanic.error_handler (.ok reqGetX) "route boom") := by
  refine ⟨(c3_panic_isolation Unit srvPanicPre).1 (.ok reqGetX) (.ok reqGetX) "pre boom" rfl,
    ?_,
    (c3_panic_isolation Unit srvPanicPost).2.2.1 (.ok reqGetX) (.ok Response.new) "post boom" rfl,
    (c3_panic_isolation Unit srvRoutePanic).2.2.2 reqGetX "route boom" rfl⟩
  exact (c3_panic_isolation Unit baseSrv).2.1 (some ()) reqGetX routePanic [] [] "route boom"
    (by decide) (by decide) rfl

/-- Core induction for the rate limiter within one window: starting from
counter value `c` for the client, a run of same-client requests at times
before the end of the window leaves `last_reset` alone, counts every
request (the end hook runs for passed and blocked requests alike), and
passes exactly the requests arriving while the counter is still below
the limit. -/
theorem rlRun_window (r : Request) (ip : String) (resp : Response) :
    ∀ (ts : List Nat) (rl : RateLimiter) (c : Nat),
      remove_address_port r.address = ip →
      rl.handler r = some resp →
      rl.requests ip = c →
      (∀ t ∈ ts, t < rl.last_reset + rl.req_timeout) →
      (rlRun rl (ts.map (fun t => (r, t)))).1 = expectedDecisions resp rl.req_limit c ts.length
      ∧ (rlRun rl (ts.map (fun t => (r, t)))).2.requests ip = c + ts.length
      ∧ (rlRun rl (ts.map (fun t => (r, t)))).2.last_reset = rl.last_reset := by
  intro ts
  induction ts with
  | nil =>
    intro rl c hip hh hc hw
    exact ⟨rfl, by simpa using hc, rfl⟩
  | cons t ts ih =>
    intro rl c hip hh hc hw
    have hw0 : t < rl.last_reset + rl.req_timeout := hw t (by simp)
    have hnores : rl.check_reset t = rl := by
      unfold RateLimiter.check_reset
      rw [if_neg (by omega)]
    have hend : rl.endStep (.ok r) t = rl.add_request ip := by
      simp [RateLimiter.endStep, hnores, hip]
    have hreq' : (rl.endStep (.ok r) t).requests ip = c + 1 := by
      rw [hend]
      simp [RateLimiter.add_request, hc]
    have hh' : (rl.endStep (.ok r) t).handler r = some resp := by
      rw [hend]; exact hh
    have hw' : ∀ t' ∈ ts,
        t' < (rl.endStep (.ok r) t).last_reset + (rl.endStep (.ok r) t).req_timeout := by
      intro t' ht'
      rw [hend]
      exact hw t' (List.mem_cons_of_mem _ ht')
    obtain ⟨ih1, ih2, ih3⟩ := ih (rl.endStep (.ok r) t) (c + 1) hip hh' hreq' hw'
    have hlim : (rl.endStep (.ok r) t).req_limit = rl.req_limit := by rw [hend]; rfl
    have hlast : (rl.endStep (.ok r) t).last_reset = rl.last_reset := by rw [hend]; rfl
    have hpre : rl.pre (.ok r) =
        if c < rl.req_limit then MiddleRequest.Continue else .Send resp := by
      by_cases hcase : c < rl.req_limit
      · simp [RateLimiter.pre, RateLimiter.is_over_limit, hip, hc, Nat.not_le.mpr hcase, hcase]
      · simp [RateLimiter.pre, RateLimiter.is_over_limit, hip, hc, Nat.le_of_not_lt hcase,
          hcase, hh]
    cases hE : rlRun (rl.endStep (.ok r) t) (ts.map (fun t => (r, t))) with
    | mk ds rlF =>
      rw [hE] at ih1 ih2 ih3
      dsimp only at ih1 ih2 ih3
      have hstep : rlRun rl ((t :: ts).map (fun t => (r, t))) = (rl.pre (.ok r) :: ds, rlF) := by
        simp [rlRun, hE]
      rw [hstep]
      refine ⟨?_, ?_, ?_⟩
      · show rl.pre (.ok r) :: ds = expectedDecisions resp rl.req_limit c (t :: ts).length
        rw [hpre, ih1, hlim]
        simp [expectedDecisions]
      · show rlF.requests ip = c + (t :: ts).length
        rw [ih2]
        simp [List.length_cons]
        omega
      · show rlF.last_reset = rl.last_reset
        rw [ih3, hlast]

/-- C9 (amended): with a limit of N per window, requests from one client
whose counter starts at `c` are passed while the counter is below N and
receive the configured over-limit response from then on — so from a
fresh window the first N requests pass and the (N+1)-th is rejected —
and every request is counted in the end phase.  The table however is
cleared only lazily: the end phase of the first request processed after
the window elapsed clears it (counting that request as the first of the
new window); that request's own pre-check still sees the stale
counters. -/
theorem c9_amended_rate_limit :
    ∀ (rl : RateLimiter) (r : Request) (ip : String) (resp : Response) (c : Nat)
      (ts : List Nat),
      remove_address_port r.address = ip →
      rl.handler r = some resp →
      rl.requests ip = c →
      ((∀ t ∈ ts, t < rl.last_reset + rl.req_timeout) →
        (rlRun rl (ts.map (fun t => (r, t)))).1 =
          expectedDecisions resp rl.req_limit c ts.length
        ∧ (rlRun rl (ts.map (fun t => (r, t)))).2.requests ip = c + ts.length
        ∧ (rlRun rl (ts.map (fun t => (r, t)))).2.last_reset = rl.last_reset)
      ∧ (∀ (t : Nat) (k : String), rl.last_reset + rl.req_timeout ≤ t →
          (rl.endStep (.ok r) t).requests k = (if k == ip then 1 else 0)
          ∧ (rl.endStep (.ok r) t).last_reset = t) := by
  intro rl r ip resp c ts hip hh hc
  constructor
  · intro hw
    exact rlRun_window r ip resp ts rl c hip hh hc hw
  · intro t k hge
    constructor
    · simp [RateLimiter.endStep, RateLimiter.check_reset, hge, RateLimiter.add_request, hip]
    · simp [RateLimiter.endStep, RateLimiter.check_reset, hge, RateLimiter.add_request]

/-- C9 (amended, witness): the limiter with limit 2 passes the first two
requests of a window and rejects the third with 429 "Too Many Requests";
an end-phase update at the moment the window has elapsed clears the
table down to this request's own count of 1 and restarts the window. -/
theorem c9_amended_rate_limit_witness :
    (rlRun rlTwo ([0, 1, 2].map (fun t => (reqRL, t)))).1 =
      expectedDecisions tooMany rlTwo.req_limit 0 3
    ∧ expectedDecisions tooMany rlTwo.req_limit 0 3 =
      [MiddleRequest.Continue, MiddleRequest.Continue, MiddleRequest.Send tooMany]
    ∧ (rlTwo.endStep (.ok reqRL) 60).requests "1.2.3.4" = 1
    ∧ (rlTwo.endStep (.ok reqRL) 60).last_reset = 60 := by
  have H := c9_amended_rate_limit rlTwo reqRL "1.2.3.4" tooMany 0 [0, 1, 2]
    (by decide) rfl rfl
  refine ⟨(H.1 (by decide)).1, by decide, ?_, (H.2 60 "1.2.3.4" (by decide)).2⟩
  have h := (H.2 60 "1.2.3.4" (by decide)).1
  simpa using h

/-- C9: counterexample.  With limit 2 per 60-second window, the client's
requests at seconds 0 and 1 pass and its request at second 61 — sent
AFTER the window elapsed — is still rejected with the over-limit
response, because the pre-check runs against the stale table and the
lazy reset only happens afterwards in the end phase; this contradicts
"after the window elapses ... the same client is served normally
again". -/
theorem c9_counterexample_stale_window :
    (rlRun rlTwo ([0, 1, 61].map (fun t => (reqRL, t)))).1 =
      [MiddleRequest.Continue, MiddleRequest.Continue, MiddleRequest.Send tooMany]
    ∧ rlTwo.last_reset + rlTwo.req_timeout ≤ 61 :=
  ⟨by decide, by decide⟩

/-- `getResponsePost` never reads the route table or the state, so
changing them leaves its result unchanged. -/
theorem getResponsePost_ignores_routes {State : Type} (srv : Server State)
    (routes2 : List (Route State)) (st2 : Option State) (rq : ReqResult) (res : ResResult) :
    getResponsePost { srv with routes := routes2, state := st2 } rq res =
      getResponsePost srv rq res := by
  unfold getResponsePost
  dsimp only
  cases hp : postLoop srv.middleware.reverse rq res with
  | panicked msg => simp [handleErrorFn, error_response]
  | aborted r2 => rfl
  | finished res2 =>
    cases res2 with
    | ok r3 => rfl
    | error e =>
      cases rq with
      | ok rq0 =>
        dsimp only
        rw [error_response_ignores_routes]
      | err err0 =>
        dsimp only
        rw [error_response_ignores_routes]

/-- C10: a response sent immediately by a pre middleware is not final.
Route dispatch is skipped — the result does not depend on the route
table or state at all — but the aborted response is fed through the
whole post phase: a post middleware may send a different response
(which becomes the final one), and otherwise the post phase's (possibly
augmented) response is written; the end hooks then observe whatever
response was ultimately produced (see the step structure of
`handle_iteration`). -/
theorem c10_pre_abort_post_still_runs :
    ∀ (State : Type) (srv : Server State) (req0 rq : ReqResult) (r : Response),
      preLoop srv.middleware.reverse req0 = .finished rq (some r) →
      (∀ (routes2 : List (Route State)) (st2 : Option State),
        get_response req0 { srv with routes := routes2, state := st2 } =
          get_response req0 srv)
      ∧ get_response req0 srv = getResponsePost srv rq (.ok r)
      ∧ (∀ r2, postLoop srv.middleware.reverse rq (.ok r) = .aborted r2 →
          get_response req0 srv = some (rq.toOption, r2))
      ∧ (∀ r3, postLoop srv.middleware.reverse rq (.ok r) = .finished (.ok r3) →
          get_response req0 srv = some (rq.toOption, r3)) := by
  intro State srv req0 rq r hpre
  have h2 : get_response req0 srv = getResponsePost srv rq (.ok r) := by
    simp [get_response, hpre]
  refine ⟨?_, h2, ?_, ?_⟩
  · intro routes2 st2
    have hmw : ({ srv with routes := routes2, state := st2 } : Server State).middleware
        = srv.middleware := rfl
    have h1 : get_response req0 { srv with routes := routes2, state := st2 } =
        getResponsePost { srv with routes := routes2, state := st2 } rq (.ok r) := by
      simp [get_response, hmw, hpre]
    rw [h1, h2, getResponsePost_ignores_routes]
  · intro r2 hp
    rw [h2]
    simp [getResponsePost, hp]
  · intro r3 hp
    rw [h2]
    simp [getResponsePost, hp]

/-- C10 (witness): on the server whose last-attached middleware aborts
the pre phase with a 201 response, the post phase still runs and its
aborting middleware replaces the response with its own 202 response,
which is what the request is answered with; swapping in a route table
and dropping the state changes nothing. -/
theorem c10_pre_abort_witness :
    get_response (.ok reqGetX) srv10 = some (some reqGetX, respPostAbort)
    ∧ get_response (.ok reqGetX) { srv10 with routes := [routeAnyStar], state := none } =
      get_response (.ok reqGetX) srv10 := by
  have H := c10_pre_abort_post_still_runs Unit srv10 (.ok reqGetX) (.ok reqGetX)
    respPreAbort rfl
  exact ⟨H.2.2.1 respPostAbort rfl, H.1 [routeAnyStar] none⟩

end Afire
